import Mathlib

/-!
Shallow embedding of the blob-container-URL cache of the reality-data client,
translated from src/RealityData.ts (class ContainerCache and class
ITwinRealityData, in particular getContainerUrl and getBlobUrl).

Ambient effects are made explicit parameters: the clock value that Date.now()
returns, the outcome the HTTP collaborator (axios) would produce for the one
possible request of a call, and the cache state before the call.  A call
returns a record carrying the result, the cache after the call, the number of
network requests issued, and the request URL when one was issued.
-/

namespace RealityDataClient

/-- A parsed URL, restricted to the fields of the WHATWG URL object that the
code reads: origin, pathname and search (the query string, including the
leading question mark when nonempty). -/
structure Url where
  origin : String
  pathname : String
  search : String
deriving DecidableEq, Repr

/-- The href of a URL whose origin, pathname and search are as stored. -/
def Url.href (u : Url) : String :=
  u.origin ++ u.pathname ++ u.search

/-- ContainerCacheValue (RealityData.ts lines 53-56): the blob url and the
timestamp at which it was fetched.  The timestamp is kept as the integer
Date.getTime() returns: milliseconds since the epoch. -/
structure ContainerCacheValue where
  url : Url
  timeStamp : Int
deriving DecidableEq, Repr

/-- ContainerCache (RealityData.ts lines 33-51): one optional slot for the
read-permission url and one for the write-permission url. -/
structure ContainerCache where
  _containerRead : Option ContainerCacheValue := none
  _containerWrite : Option ContainerCacheValue := none
deriving DecidableEq, Repr

/-- ContainerCache.getCache (lines 38-43): dispatches on access being exactly
the string "Read"; every other access string reads the write slot. -/
def ContainerCache.getCache (c : ContainerCache) (access : String) :
    Option ContainerCacheValue :=
  if access = "Read" then c._containerRead else c._containerWrite

/-- ContainerCache.setCache (lines 45-50): dispatches on access being exactly
the string "Read"; every other access string overwrites the write slot. -/
def ContainerCache.setCache (c : ContainerCache) (v : ContainerCacheValue)
    (access : String) : ContainerCache :=
  if access = "Read" then { c with _containerRead := some v }
  else { c with _containerWrite := some v }

/-- The fields of RealityDataAccessClient that getContainerUrl reads. -/
structure RealityDataAccessClient where
  baseUrl : String := "https://api.bentley.com/realitydata"
deriving DecidableEq, Repr

/-- The fields of ITwinRealityData that getContainerUrl and getBlobUrl read.
In the source, id and iTwinId are GuidString fields that may be left
undefined (the constructor only assigns them when data is provided), and
client may be undefined; absence is modelled as none. -/
structure ITwinRealityData where
  id : Option String := none
  iTwinId : Option String := none
  client : Option RealityDataAccessClient := none
deriving DecidableEq, Repr

/-- JavaScript template-literal interpolation of a possibly-undefined string:
an undefined value interpolates as the literal text "undefined". -/
def jsInterp : Option String → String
  | none => "undefined"
  | some s => s

/-- JavaScript truthiness of a possibly-undefined string: undefined and the
empty string are falsy, every other string is truthy. -/
def jsTruthy : Option String → Bool
  | none => false
  | some s => !(s == "")

/-- The container field of a successful response body, with the nested
_links.containerUrl.href already parsed as a URL. -/
structure ContainerField where
  containerUrlHref : Url
deriving DecidableEq, Repr

/-- The JSON body of a container-endpoint response: the container field may be
absent (response.data.container undefined). -/
structure ResponseData where
  container : Option ContainerField
deriving DecidableEq, Repr

/-- The outcome the HTTP collaborator would produce for the request of this
call: a transport failure, a non-success HTTP status, or a success carrying a
parsed body. -/
inductive HttpOutcome where
  | transportFailure (message : String)
  | statusFailure (status : Nat) (message : String)
  | success (data : ResponseData)
deriving DecidableEq, Repr

/-- axios.get semantics: resolves with the parsed body on a success status and
rejects (throws) on a non-success status or a transport failure. -/
def axiosGet : HttpOutcome → Except String ResponseData
  | .transportFailure m => .error m
  | .statusFailure s m =>
      .error ("Request failed with status code " ++ toString s ++ ": " ++ m)
  | .success d => .ok d

/-- The errors getContainerUrl can throw: the client-not-set precondition
check (line 158, thrown outside the try block), and the catch-all rethrow
Error("API request error: " + ...) of line 189 that wraps every failure
raised inside the try block. -/
inductive RdError where
  | clientNotSet
  | apiRequestError (info : String)
deriving DecidableEq, Repr

/-- What one call to getContainerUrl or getBlobUrl does: its result, the cache
after the call, how many network requests were issued (0 or 1), and the
request URL when a request was issued. -/
structure ResolveOutcome where
  result : Except RdError Url
  cache : ContainerCache
  networkCalls : Nat
  requestUrl : Option String
deriving Repr

/-- Line 165: blobUrlRequiresRefresh.  An absent slot (no timeStamp) requires
a refresh; a present slot requires one exactly when now minus its timestamp
exceeds 3000000 milliseconds (50 minutes). -/
def blobUrlRequiresRefresh (containerCache : Option ContainerCacheValue)
    (now : Int) : Bool :=
  match containerCache with
  | none => true
  | some cv => decide (now - cv.timeStamp > 3000000)

/-- The pure freshness helper of the specification (section 4.1): a slot is
fresh at now exactly when the resolver would serve it without a refresh. -/
def isFresh (slot : Option ContainerCacheValue) (now : Int) : Bool :=
  !(blobUrlRequiresRefresh slot now)

/-- The non-null assertion of line 187, getCache(access)!.url: reading .url of
an undefined slot would raise a TypeError, which the surrounding try block
catches and rethrows as an API request error. -/
def bangUrl : Option ContainerCacheValue → Except RdError Url
  | some cv => .ok cv.url
  | none => .error (.apiRequestError "TypeError: cannot read url of undefined")

/-- Line 160: the access string sent to the API and used as the cache key. -/
def accessString (writeAccess : Bool) : String :=
  if writeAccess = true then "Write" else "Read"

/-- Lines 169-170: the request URL template literals.  When the iTwin id is
truthy the projectId query parameter carries it; otherwise the parameter is
omitted (the query string starts with a bare ampersand). -/
def containerRequestUrl (e : ITwinRealityData)
    (client : RealityDataAccessClient) (access : String) : String :=
  if jsTruthy e.iTwinId then
    client.baseUrl ++ "/" ++ jsInterp e.id ++ "/container/?projectId="
      ++ jsInterp e.iTwinId ++ "&access=" ++ access
  else
    client.baseUrl ++ "/" ++ jsInterp e.id ++ "/container/?&access=" ++ access

/-- ITwinRealityData.getContainerUrl (RealityData.ts lines 155-191).  On a
fetch, every throw inside the try block is caught and rethrown as an API
request error (line 189); the missing-container check of lines 175-177 throws
Error("API returned an unexpected response."). -/
def ITwinRealityData.getContainerUrl (e : ITwinRealityData)
    (cache : ContainerCache) (writeAccess : Bool) (now : Int)
    (http : HttpOutcome) : ResolveOutcome :=
  match e.client with
  | none =>
      { result := .error .clientNotSet, cache := cache, networkCalls := 0,
        requestUrl := none }
  | some client =>
    let access := accessString writeAccess
    let containerCache := cache.getCache access
    if containerCache.isNone || blobUrlRequiresRefresh containerCache now then
      let url := containerRequestUrl e client access
      match axiosGet http with
      | .error info =>
          { result := .error (.apiRequestError ("API request error: " ++ info)),
            cache := cache, networkCalls := 1, requestUrl := some url }
      | .ok data =>
        match data.container with
        | none =>
            { result := .error (.apiRequestError
                ("API request error: API returned an unexpected response.")),
              cache := cache, networkCalls := 1, requestUrl := some url }
        | some container =>
          let newContainerCacheValue : ContainerCacheValue :=
            { url := container.containerUrlHref, timeStamp := now }
          let newCache := cache.setCache newContainerCacheValue access
          { result := bangUrl (newCache.getCache access), cache := newCache,
            networkCalls := 1, requestUrl := some url }
    else
      { result := bangUrl containerCache, cache := cache, networkCalls := 0,
        requestUrl := none }

/-- The URL composition of getBlobUrl (lines 142-147): an undefined blobPath
returns the container url unchanged; otherwise the result is
new URL(origin + pathname + "/" + blobPath + search).  The URL constructor is
modelled structurally: for a relative path free of "?" and "#", parsing the
composed string back yields the same origin, the extended pathname, and the
same search. -/
def composeBlobUrl (url : Url) (blobPath : Option String) : Url :=
  match blobPath with
  | none => url
  | some p =>
      { origin := url.origin, pathname := url.pathname ++ "/" ++ p,
        search := url.search }

/-- ITwinRealityData.getBlobUrl (lines 140-148): resolve the container URL
with read access, then compose it with the blob path. -/
def ITwinRealityData.getBlobUrl (e : ITwinRealityData) (cache : ContainerCache)
    (now : Int) (http : HttpOutcome) (blobPath : Option String) :
    ResolveOutcome :=
  let r := e.getContainerUrl cache false now http
  match r.result with
  | .error _ => r
  | .ok url => { r with result := .ok (composeBlobUrl url blobPath) }

/-- The three resolution-failure conditions of the specification, as a
predicate on the HTTP outcome: a transport failure, a non-success status, or
a success whose body lacks the container field. -/
def resolutionFails : HttpOutcome → Bool
  | .transportFailure _ => true
  | .statusFailure _ _ => true
  | .success d => d.container.isNone

/-- A sample container URL used by concrete instances below. -/
def sampleUrl : Url :=
  { origin := "https://host", pathname := "/container", search := "?sig=abc123" }

/-- A sample cache value used by concrete instances below. -/
def sampleValue : ContainerCacheValue :=
  { url := sampleUrl, timeStamp := 0 }

/-- A sample entity with all fields set, used by concrete instances below. -/
def sampleEntity : ITwinRealityData :=
  { id := some "rd1", iTwinId := some "itwin1", client := some {} }

/-- A successful response body carrying sampleUrl as the container link. -/
def sampleResponse : ResponseData :=
  { container := some { containerUrlHref := sampleUrl } }

/-! ## Helper lemmas shared by the claim theorems -/

theorem getCache_setCache_same (c : ContainerCache) (v : ContainerCacheValue)
    (a : String) : (c.setCache v a).getCache a = some v := by
  by_cases h : a = "Read" <;>
    simp [ContainerCache.setCache, ContainerCache.getCache, h]

theorem setCache_keeps_read_slot (c : ContainerCache) (v : ContainerCacheValue)
    (a : String) (h : a ≠ "Read") :
    (c.setCache v a)._containerRead = c._containerRead := by
  simp [ContainerCache.setCache, h]

theorem setCache_keeps_write_slot (c : ContainerCache) (v : ContainerCacheValue) :
    (c.setCache v "Read")._containerWrite = c._containerWrite := by
  simp [ContainerCache.setCache]

/-- Equation lemma for the cache-hit path: a present slot that does not
require a refresh is served from the cache with no network request. -/
theorem getContainerUrl_hit (e : ITwinRealityData)
    (cl : RealityDataAccessClient) (cache : ContainerCache) (w : Bool)
    (now : Int) (http : HttpOutcome) (cv : ContainerCacheValue)
    (hc : e.client = some cl)
    (hslot : cache.getCache (accessString w) = some cv)
    (hfresh : blobUrlRequiresRefresh (some cv) now = false) :
    e.getContainerUrl cache w now http =
      { result := .ok cv.url, cache := cache, networkCalls := 0,
        requestUrl := none } := by
  unfold ITwinRealityData.getContainerUrl
  rw [hc]
  simp [hslot, hfresh, bangUrl]

/-- Equation lemma for a fetch whose HTTP call rejects: the error is wrapped
and rethrown, the cache is untouched. -/
theorem getContainerUrl_fetch_reject (e : ITwinRealityData)
    (cl : RealityDataAccessClient) (cache : ContainerCache) (w : Bool)
    (now : Int) (http : HttpOutcome) (info : String)
    (hc : e.client = some cl)
    (href : blobUrlRequiresRefresh (cache.getCache (accessString w)) now = true)
    (haxios : axiosGet http = .error info) :
    e.getContainerUrl cache w now http =
      { result := .error (.apiRequestError ("API request error: " ++ info)),
        cache := cache, networkCalls := 1,
        requestUrl := some (containerRequestUrl e cl (accessString w)) } := by
  unfold ITwinRealityData.getContainerUrl
  rw [hc]
  cases hslot : cache.getCache (accessString w) with
  | none => simp only [hslot] at href ⊢; simp [href, haxios]
  | some cv => simp only [hslot] at href ⊢; simp [href, haxios]

/-- Equation lemma for a fetch whose response body lacks the container field:
the unexpected-response error is thrown, caught and rethrown; the cache is
untouched. -/
theorem getContainerUrl_fetch_no_container (e : ITwinRealityData)
    (cl : RealityDataAccessClient) (cache : ContainerCache) (w : Bool)
    (now : Int) (data : ResponseData)
    (hc : e.client = some cl)
    (href : blobUrlRequiresRefresh (cache.getCache (accessString w)) now = true)
    (hdata : data.container = none) :
    e.getContainerUrl cache w now (.success data) =
      { result := .error (.apiRequestError
          "API request error: API returned an unexpected response."),
        cache := cache, networkCalls := 1,
        requestUrl := some (containerRequestUrl e cl (accessString w)) } := by
  unfold ITwinRealityData.getContainerUrl
  rw [hc]
  cases hslot : cache.getCache (accessString w) with
  | none => simp only [hslot] at href ⊢; simp [href, axiosGet, hdata]
  | some cv => simp only [hslot] at href ⊢; simp [href, axiosGet, hdata]

/-- Equation lemma for a successful fetch: the slot for the requested access
string is overwritten with the new url stamped at now, and that url is
returned. -/
theorem getContainerUrl_fetch_success (e : ITwinRealityData)
    (cl : RealityDataAccessClient) (cache : ContainerCache) (w : Bool)
    (now : Int) (data : ResponseData) (cont : ContainerField)
    (hc : e.client = some cl)
    (href : blobUrlRequiresRefresh (cache.getCache (accessString w)) now = true)
    (hdata : data.container = some cont) :
    e.getContainerUrl cache w now (.success data) =
      { result := .ok cont.containerUrlHref,
        cache := cache.setCache
          { url := cont.containerUrlHref, timeStamp := now } (accessString w),
        networkCalls := 1,
        requestUrl := some (containerRequestUrl e cl (accessString w)) } := by
  unfold ITwinRealityData.getContainerUrl
  rw [hc]
  cases hslot : cache.getCache (accessString w) with
  | none =>
      simp only [hslot] at href ⊢
      simp [href, axiosGet, hdata, getCache_setCache_same, bangUrl]
  | some cv =>
      simp only [hslot] at href ⊢
      simp [href, axiosGet, hdata, getCache_setCache_same, bangUrl]

/-- A slot that does not require a refresh is present and fresh. -/
theorem slot_of_not_refresh (slot : Option ContainerCacheValue) (now : Int)
    (h : blobUrlRequiresRefresh slot now = false) :
    ∃ cv, slot = some cv ∧ blobUrlRequiresRefresh (some cv) now = false := by
  cases slot with
  | none => simp [blobUrlRequiresRefresh] at h
  | some cv => exact ⟨cv, rfl, h⟩

/-- The cache after a getContainerUrl call is either the cache before it or
that cache with one setCache applied for the requested access string. -/
theorem getContainerUrl_cache_shape (e : ITwinRealityData)
    (cache : ContainerCache) (w : Bool) (now : Int) (http : HttpOutcome) :
    (e.getContainerUrl cache w now http).cache = cache ∨
    ∃ v, (e.getContainerUrl cache w now http).cache =
      cache.setCache v (accessString w) := by
  cases hcl : e.client with
  | none =>
      left
      unfold ITwinRealityData.getContainerUrl
      rw [hcl]
  | some cl =>
    cases hr : blobUrlRequiresRefresh (cache.getCache (accessString w)) now with
    | false =>
      obtain ⟨cv, hslot, hfr⟩ := slot_of_not_refresh _ _ hr
      left
      rw [getContainerUrl_hit e cl cache w now http cv hcl hslot hfr]
    | true =>
      cases http with
      | transportFailure m =>
          left
          rw [getContainerUrl_fetch_reject e cl cache w now (.transportFailure m) m hcl hr rfl]
      | statusFailure s m =>
          left
          rw [getContainerUrl_fetch_reject e cl cache w now (.statusFailure s m)
            ("Request failed with status code " ++ toString s ++ ": " ++ m) hcl hr rfl]
      | success d =>
        cases hd : d.container with
        | none =>
            left
            rw [getContainerUrl_fetch_no_container e cl cache w now d hcl hr hd]
        | some cont =>
            right
            exact ⟨_, by
              rw [getContainerUrl_fetch_success e cl cache w now d cont hcl hr hd]⟩

/-- getBlobUrl issues exactly the network traffic of its getContainerUrl call
and finishes with the same cache. -/
theorem getBlobUrl_effects (e : ITwinRealityData) (cache : ContainerCache)
    (now : Int) (http : HttpOutcome) (p : Option String) :
    (e.getBlobUrl cache now http p).networkCalls =
      (e.getContainerUrl cache false now http).networkCalls ∧
    (e.getBlobUrl cache now http p).cache =
      (e.getContainerUrl cache false now http).cache := by
  unfold ITwinRealityData.getBlobUrl
  cases h : (e.getContainerUrl cache false now http).result <;> simp [h]

/-! ## Claim theorems -/

/-- C1 counterexample: for a credential obtained at t0 = 0, at
now = 3000000 ms — exactly t0 + 50 minutes — the freshness check is still
true and getContainerUrl serves the credential from the cache with no network
request, refuting the claim that the check is false for every now at or
beyond t0 + 50 minutes. -/
theorem C1_counterexample :
    isFresh (some sampleValue) 3000000 = true ∧
    ITwinRealityData.getContainerUrl sampleEntity
        { _containerRead := some sampleValue } false 3000000
        (.transportFailure "network down") =
      { result := .ok sampleUrl,
        cache := { _containerRead := some sampleValue },
        networkCalls := 0, requestUrl := none } :=
  ⟨rfl, rfl⟩

/-- C1 (amended): a cached credential obtained at t0 is fresh at now iff
now - t0 is at most 3000000 ms (50 minutes): the check is true for every
now up to and including t0 + 50 minutes and false for every now strictly
beyond it, so at exactly t0 + 50 minutes the credential is still served from
the cache; an absent slot is never fresh. -/
theorem C1_freshness_boundary (cv : ContainerCacheValue) (now : Int) :
    (isFresh (some cv) now = true ↔ now - cv.timeStamp ≤ 3000000) ∧
    isFresh none now = false := by
  refine ⟨?_, rfl⟩
  simp [isFresh, blobUrlRequiresRefresh, not_lt]

/-- C2: when the slot for the requested access mode holds a credential that
is fresh at call time, getContainerUrl returns the stored url, issues no
network request and leaves the cache unchanged; consequently, starting from
an empty Read slot, two consecutive getBlobUrl calls within the freshness
window issue exactly one network request in total. -/
theorem C2_fresh_cache_no_network :
    (∀ (e : ITwinRealityData) (cl : RealityDataAccessClient)
        (cache : ContainerCache) (w : Bool) (now : Int) (http : HttpOutcome)
        (cv : ContainerCacheValue),
      e.client = some cl →
      cache.getCache (accessString w) = some cv →
      isFresh (some cv) now = true →
      e.getContainerUrl cache w now http =
        { result := .ok cv.url, cache := cache, networkCalls := 0,
          requestUrl := none }) ∧
    (∀ (e : ITwinRealityData) (cl : RealityDataAccessClient)
        (cache : ContainerCache) (t₁ t₂ : Int) (data : ResponseData)
        (cont : ContainerField) (http₂ : HttpOutcome) (p₁ p₂ : Option String),
      e.client = some cl →
      cache.getCache "Read" = none →
      data.container = some cont →
      t₂ - t₁ ≤ 3000000 →
      (e.getBlobUrl cache t₁ (.success data) p₁).networkCalls +
        (e.getBlobUrl (e.getBlobUrl cache t₁ (.success data) p₁).cache
          t₂ http₂ p₂).networkCalls = 1) := by
  constructor
  · intro e cl cache w now http cv hc hslot hfresh
    have hfr : blobUrlRequiresRefresh (some cv) now = false := by
      simpa [isFresh] using hfresh
    exact getContainerUrl_hit e cl cache w now http cv hc hslot hfr
  · intro e cl cache t₁ t₂ data cont http₂ p₁ p₂ hc hslot hdata hwin
    have hslot' : cache.getCache (accessString false) = none := hslot
    have href : blobUrlRequiresRefresh (cache.getCache (accessString false)) t₁
        = true := by rw [hslot']; rfl
    have h₁ := getContainerUrl_fetch_success e cl cache false t₁ data cont
      hc href hdata
    have e₁ := getBlobUrl_effects e cache t₁ (.success data) p₁
    have hn₁ : (e.getBlobUrl cache t₁ (.success data) p₁).networkCalls = 1 := by
      rw [e₁.1, h₁]
    have hcache₁ : (e.getBlobUrl cache t₁ (.success data) p₁).cache =
        cache.setCache { url := cont.containerUrlHref, timeStamp := t₁ }
          (accessString false) := by
      rw [e₁.2, h₁]
    have hslot₂ : ((e.getBlobUrl cache t₁ (.success data) p₁).cache).getCache
        (accessString false) =
        some { url := cont.containerUrlHref, timeStamp := t₁ } := by
      rw [hcache₁]
      exact getCache_setCache_same _ _ _
    have hfr₂ : blobUrlRequiresRefresh
        (some { url := cont.containerUrlHref, timeStamp := t₁ }) t₂ = false := by
      simp [blobUrlRequiresRefresh]
      omega
    have h₂ := getContainerUrl_hit e cl
      (e.getBlobUrl cache t₁ (.success data) p₁).cache false t₂ http₂ _
      hc hslot₂ hfr₂
    have e₂ := getBlobUrl_effects e
      (e.getBlobUrl cache t₁ (.success data) p₁).cache t₂ http₂ p₂
    have hn₂ : (e.getBlobUrl (e.getBlobUrl cache t₁ (.success data) p₁).cache
        t₂ http₂ p₂).networkCalls = 0 := by
      rw [e₂.1, h₂]
    rw [hn₁, hn₂]

/-- C2 witness: with a Read slot obtained at time 0 and a call at time 100,
the stored url is returned with zero network requests. -/
theorem C2_witness :
    ITwinRealityData.getContainerUrl sampleEntity
        { _containerRead := some sampleValue } false 100
        (.transportFailure "down") =
      { result := .ok sampleUrl,
        cache := { _containerRead := some sampleValue },
        networkCalls := 0, requestUrl := none } :=
  C2_fresh_cache_no_network.1 sampleEntity {} _ false 100 _ sampleValue
    rfl rfl rfl

/-- C3: when resolution fails — the HTTP call rejects or the response body is
rejected as malformed — the cache is unchanged, a subsequent call behaves
exactly as if the failed call had never happened (so a prior credential for
the mode is still served while fresh, and with no prior credential the next
call retries resolution from scratch), and whenever a fetch was actually
attempted the failing call returns an error rather than any URL. -/
theorem C3_failure_leaves_cache (e : ITwinRealityData)
    (cl : RealityDataAccessClient) (cache : ContainerCache) (w : Bool)
    (now : Int) (http : HttpOutcome)
    (hc : e.client = some cl)
    (hfail : resolutionFails http = true) :
    (e.getContainerUrl cache w now http).cache = cache ∧
    (∀ (w' : Bool) (now' : Int) (http' : HttpOutcome),
      e.getContainerUrl (e.getContainerUrl cache w now http).cache
          w' now' http' =
        e.getContainerUrl cache w' now' http') ∧
    (blobUrlRequiresRefresh (cache.getCache (accessString w)) now = true →
      ∃ err, (e.getContainerUrl cache w now http).result = .error err) := by
  have hcore : (e.getContainerUrl cache w now http).cache = cache := by
    cases hr : blobUrlRequiresRefresh (cache.getCache (accessString w)) now with
    | false =>
      obtain ⟨cv, hslot, hfr⟩ := slot_of_not_refresh _ _ hr
      rw [getContainerUrl_hit e cl cache w now http cv hc hslot hfr]
    | true =>
      cases http with
      | transportFailure m =>
          rw [getContainerUrl_fetch_reject e cl cache w now (.transportFailure m) m hc hr rfl]
      | statusFailure s m =>
          rw [getContainerUrl_fetch_reject e cl cache w now (.statusFailure s m)
            ("Request failed with status code " ++ toString s ++ ": " ++ m) hc hr rfl]
      | success d =>
        cases hd : d.container with
        | none =>
            rw [getContainerUrl_fetch_no_container e cl cache w now d hc hr hd]
        | some cont => simp [resolutionFails, hd] at hfail
  refine ⟨hcore, ?_, ?_⟩
  · intro w' now' http'
    rw [hcore]
  · intro hr
    cases http with
    | transportFailure m =>
        exact ⟨_, by rw [getContainerUrl_fetch_reject e cl cache w now (.transportFailure m) m hc hr rfl]⟩
    | statusFailure s m =>
        exact ⟨_, by rw [getContainerUrl_fetch_reject e cl cache w now (.statusFailure s m)
            ("Request failed with status code " ++ toString s ++ ": " ++ m) hc hr rfl]⟩
    | success d =>
      cases hd : d.container with
      | none =>
          exact ⟨_, by rw [getContainerUrl_fetch_no_container e cl cache w now d hc hr hd]⟩
      | some cont => simp [resolutionFails, hd] at hfail

/-- C3 witness: a transport failure against an empty cache leaves the cache
empty. -/
theorem C3_witness :
    (ITwinRealityData.getContainerUrl sampleEntity {} false 0
        (.transportFailure "down")).cache = {} :=
  (C3_failure_leaves_cache sampleEntity {} {} false 0
    (.transportFailure "down") rfl rfl).1

/-- C4: when a fetch is required, each of the three failure conditions makes
the call raise: a transport failure and a non-success HTTP status are wrapped
into the rethrown API request error carrying the diagnostic text, and a
success body lacking the container field raises the unexpected-response
error; in the last case no URL is ever returned to the caller. -/
theorem C4_three_failure_conditions_raise (e : ITwinRealityData)
    (cl : RealityDataAccessClient) (cache : ContainerCache) (w : Bool)
    (now : Int)
    (hc : e.client = some cl)
    (href : blobUrlRequiresRefresh (cache.getCache (accessString w)) now = true) :
    (∀ m, (e.getContainerUrl cache w now (.transportFailure m)).result =
        .error (.apiRequestError ("API request error: " ++ m))) ∧
    (∀ s m, ∃ info,
      (e.getContainerUrl cache w now (.statusFailure s m)).result =
        .error (.apiRequestError info)) ∧
    (∀ data, data.container = none →
      (e.getContainerUrl cache w now (.success data)).result =
        .error (.apiRequestError
          "API request error: API returned an unexpected response.") ∧
      ∀ u, (e.getContainerUrl cache w now (.success data)).result ≠ .ok u) := by
  refine ⟨?_, ?_, ?_⟩
  · intro m
    rw [getContainerUrl_fetch_reject e cl cache w now (.transportFailure m) m hc href rfl]
  · intro s m
    exact ⟨_, by rw [getContainerUrl_fetch_reject e cl cache w now (.statusFailure s m)
        ("Request failed with status code " ++ toString s ++ ": " ++ m) hc href rfl]⟩
  · intro data hdata
    rw [getContainerUrl_fetch_no_container e cl cache w now data hc href hdata]
    simp

/-- C4 witness: a transport failure against an empty cache raises the wrapped
API request error. -/
theorem C4_witness :
    (ITwinRealityData.getContainerUrl sampleEntity {} false 0
        (.transportFailure "down")).result =
      .error (.apiRequestError ("API request error: " ++ "down")) :=
  (C4_three_failure_conditions_raise sampleEntity {} {} false 0 rfl rfl).1 "down"

/-- C5: failing input for the missing-identifier precondition.  With the
entity identifier unset, the code does not raise before requesting: it issues
the network request anyway — the id interpolates as the literal string
"undefined" in the request URL — and returns the fetched URL.  This refutes
the claim that an InvalidStateError is raised before any network request. -/
theorem C5_missing_id_still_requests :
    ITwinRealityData.getContainerUrl
        { id := none, iTwinId := some "itwin1", client := some {} } {} false 0
        (.success sampleResponse) =
      { result := .ok sampleUrl,
        cache := { _containerRead := some { url := sampleUrl, timeStamp := 0 } },
        networkCalls := 1,
        requestUrl := some
          "https://api.bentley.com/realitydata/undefined/container/?projectId=itwin1&access=Read" } :=
  rfl

/-- C6: resolving one access mode never modifies the cache slot of the other
mode: a resolution with write access leaves the read slot unchanged, and a
resolution with read access leaves the write slot unchanged, for every cache
state, clock value and HTTP outcome. -/
theorem C6_mode_isolation (e : ITwinRealityData) (cache : ContainerCache)
    (now : Int) (http : HttpOutcome) :
    (e.getContainerUrl cache true now http).cache._containerRead =
      cache._containerRead ∧
    (e.getContainerUrl cache false now http).cache._containerWrite =
      cache._containerWrite := by
  constructor
  · rcases getContainerUrl_cache_shape e cache true now http with h | ⟨v, h⟩
    · rw [h]
    · rw [h]
      exact setCache_keeps_read_slot cache v _ (by decide)
  · rcases getContainerUrl_cache_shape e cache false now http with h | ⟨v, h⟩
    · rw [h]
    · rw [h]
      exact setCache_keeps_write_slot cache v

/-- C7: for every container URL and present relative path, the composed blob
URL is the container origin plus pathname, then a slash, then the path, then
the original query string verbatim; the concrete example of the
specification is included. -/
theorem C7_query_string_preserved (url : Url) (p : String) :
    ((composeBlobUrl url (some p)).href =
        url.origin ++ url.pathname ++ "/" ++ p ++ url.search ∧
      (composeBlobUrl url (some p)).search = url.search) ∧
    composeBlobUrl sampleUrl (some "tileset.json") =
      { origin := "https://host", pathname := "/container/tileset.json",
        search := "?sig=abc123" } := by
  refine ⟨⟨?_, rfl⟩, rfl⟩
  simp [composeBlobUrl, Url.href, String.append_assoc]

/-- C8: with an absent relative path the composition is the identity on the
resolved container URL, and getBlobUrl with an absent path returns exactly
what getContainerUrl returns, query string untouched. -/
theorem C8_no_path_is_identity (url : Url) (e : ITwinRealityData)
    (cache : ContainerCache) (now : Int) (http : HttpOutcome) :
    composeBlobUrl url none = url ∧
    e.getBlobUrl cache now http none = e.getContainerUrl cache false now http := by
  refine ⟨rfl, ?_⟩
  have key : ∀ r : ResolveOutcome,
      (match r.result with
        | Except.error _ => r
        | Except.ok u => { r with result := Except.ok (composeBlobUrl u none) })
        = r := by
    intro r
    obtain ⟨res, ca, n, ru⟩ := r
    cases res <;> rfl
  exact key (e.getContainerUrl cache false now http)

/-- C9: with no iTwin identifier associated with the entity, the request is
still issued — the request URL omits the projectId query parameter — and a
successful response resolves normally, so the missing project identifier is
not treated as an error. -/
theorem C9_missing_itwin_not_an_error (e : ITwinRealityData)
    (cl : RealityDataAccessClient) (cache : ContainerCache) (w : Bool)
    (now : Int) (data : ResponseData) (cont : ContainerField) (idStr : String)
    (hc : e.client = some cl) (hid : e.id = some idStr)
    (hitwin : e.iTwinId = none)
    (href : blobUrlRequiresRefresh (cache.getCache (accessString w)) now = true)
    (hdata : data.container = some cont) :
    (e.getContainerUrl cache w now (.success data)).networkCalls = 1 ∧
    (e.getContainerUrl cache w now (.success data)).requestUrl =
      some (cl.baseUrl ++ "/" ++ idStr ++ "/container/?&access="
        ++ accessString w) ∧
    (e.getContainerUrl cache w now (.success data)).result =
      .ok cont.containerUrlHref := by
  rw [getContainerUrl_fetch_success e cl cache w now data cont hc href hdata]
  refine ⟨rfl, ?_, rfl⟩
  simp [containerRequestUrl, jsTruthy, hitwin, jsInterp, hid]

/-- C9 witness: an entity with an id but no iTwin id resolves successfully,
with the projectId parameter absent from the request URL. -/
theorem C9_witness :
    (ITwinRealityData.getContainerUrl
        { id := some "rd1", iTwinId := none, client := some {} } {} false 0
        (.success sampleResponse)).requestUrl =
      some ("https://api.bentley.com/realitydata" ++ "/" ++ "rd1"
        ++ "/container/?&access=" ++ accessString false) :=
  (C9_missing_itwin_not_an_error _ {} {} false 0 sampleResponse _ "rd1"
    rfl rfl rfl rfl rfl).2.1

/-- C10: reading the cache with an access string right after storing under
the same string returns exactly the stored value; both getCache and setCache
dispatch solely on equality with the string "Read", so every access string
other than exactly "Read" addresses the write slot, and "Read" addresses the
read slot. -/
theorem C10_cache_dispatch (c : ContainerCache) (v : ContainerCacheValue)
    (a : String) :
    ((c.setCache v a).getCache a = some v) ∧
    (a ≠ "Read" →
      c.getCache a = c._containerWrite ∧
      c.setCache v a = { c with _containerWrite := some v }) ∧
    (c.getCache "Read" = c._containerRead ∧
      c.setCache v "Read" = { c with _containerRead := some v }) := by
  refine ⟨getCache_setCache_same c v a, ?_, by simp [ContainerCache.getCache],
    by simp [ContainerCache.setCache]⟩
  intro h
  constructor
  · simp [ContainerCache.getCache, h]
  · simp [ContainerCache.setCache, h]

/-- C10 witness: storing under "Write" and reading back returns the value,
and the access string "Other" also addresses the write slot. -/
theorem C10_witness :
    (({} : ContainerCache).setCache sampleValue "Write").getCache "Write" =
        some sampleValue ∧
    ({ _containerRead := some sampleValue } : ContainerCache).getCache "Other" =
        ({ _containerRead := some sampleValue } : ContainerCache)._containerWrite := by
  have h₁ := C10_cache_dispatch {} sampleValue "Write"
  have h₂ := C10_cache_dispatch { _containerRead := some sampleValue }
    sampleValue "Other"
  exact ⟨h₁.1, (h₂.2.1 (by decide)).1⟩

end RealityDataClient
